import Mathlib

/-!
Shallow embedding of the `prompts-rs` interactive prompt library.

Each definition mirrors one item of the Rust source under `src/`:
key events and modifiers (`crossterm` as used by the code), the shared
utilities (`utils.rs`), and the five prompt types (`select.rs`,
`multi_select.rs`, `autocomplete.rs`, `text.rs`, `confirm.rs`) with their
`handle_key_event` transition functions, the state updates performed by
`display`, and a model of the `run` event loop including raw-mode
bookkeeping and fallible terminal writes.

Rust `String` values are modelled as `List Char` (the source assumes one
input unit equals one column); `usize` arithmetic that the source performs
with `checked_sub(..).unwrap_or(..)` or `saturating_sub` is modelled with
truncated `Nat` subtraction, which agrees with it.
-/

namespace Prompts

/-- Key modifiers as used by the source: only the SHIFT/CONTROL/ALT bits
are ever inspected (`KeyModifiers::CONTROL`, `KeyModifiers::empty()`). -/
structure Modifiers where
  shift : Bool
  control : Bool
  alt : Bool
deriving DecidableEq, Repr

/-- Mirror of `KeyModifiers::empty()`. -/
def Modifiers.empty : Modifiers := ⟨false, false, false⟩

/-- Mirror of `KeyModifiers::CONTROL`. -/
def Modifiers.controlOnly : Modifiers := ⟨false, true, false⟩

/-- Mirror of the key codes the source matches on; every other `crossterm` key code
falls into the wildcard arms, modelled by `otherKey`. -/
inductive KeyCode where
  | enter
  | esc
  | backspace
  | left
  | right
  | up
  | down
  | home
  | endKey
  | char (c : Char)
  | otherKey
deriving DecidableEq, Repr

/-- Mirror of `crossterm::event::KeyEvent` as consumed by the source
(`KeyEvent { modifiers, code }`). -/
structure KeyEvent where
  code : KeyCode
  modifiers : Modifiers
deriving DecidableEq, Repr

/-- Mirror of `utils::PromptState`. -/
inductive PromptState where
  | Created
  | Running
  | Validate
  | Aborted
  | Success
deriving DecidableEq, Repr

/-- Mirror of `PromptState::is_done`. -/
def PromptState.is_done (s : PromptState) : Bool :=
  s == .Aborted || s == .Success

/-- Mirror of `utils::is_abort_event`: true on CTRL+c, CTRL+d and plain ESC. -/
def is_abort_event (e : KeyEvent) : Bool :=
  (e.modifiers == Modifiers.controlOnly && (e.code == .char 'c' || e.code == .char 'd'))
    || (e.modifiers == Modifiers.empty && e.code == .esc)

/-- Mirror of `utils::calc_entries`: start and end index of the visible window.
`total.checked_sub(limit).unwrap_or(0)` and
`current.checked_sub(limit / 2).unwrap_or(0)` are truncated subtraction. -/
def calc_entries (current total limit : Nat) : Nat × Nat :=
  let start_index := min (total - limit) (current - limit / 2)
  let end_index := min (start_index + limit) total
  (start_index, end_index)

/-- Mirror of `String::insert(idx, ch)` on the character-list model. -/
def insertAt {α : Type} : List α → Nat → α → List α
  | l, 0, a => a :: l
  | [], _ + 1, a => [a]
  | x :: xs, n + 1, a => x :: insertAt xs n a

/-- Mirror of `str::starts_with`: does `s` start with `p`? -/
def startsWithChars : List Char → List Char → Bool
  | _, [] => true
  | [], _ :: _ => false
  | c :: cs, d :: ds => c == d && startsWithChars cs ds

/-- Mirror of `str::contains`: does `s` contain `p` as a contiguous substring? -/
def containsChars : List Char → List Char → Bool
  | s, p => if startsWithChars s p then true else
      match s with
      | [] => false
      | _ :: cs => containsChars cs p

/-- Mirror of `autocomplete::simple_filter`: keep the choices whose display string
starts with the input.  The Rust `Display` bound is modelled by the
explicit `disp` function. -/
def simple_filter {α : Type} (disp : α → List Char) (input : List Char)
    (choices : List α) : List α :=
  choices.filter (fun c => startsWithChars (disp c) input)

/-- Modelled from the spec: `contains_filter` is referenced by
`multi_select.rs` (`use crate::utils::contains_filter`) but its definition
is not under `src/`.  The spec states that multi-select's default policy is
a substring ("contains") match on the item's display string. -/
def contains_filter {α : Type} (disp : α → List Char) (input : List Char)
    (choice : α) : Bool :=
  containsChars (disp choice) input

/-- Mirror of `select::SelectPrompt`. -/
structure SelectPrompt (α : Type) where
  message : List Char
  state : PromptState
  choices : List α
  current : Nat
  limit : Nat

/-- Mirror of `SelectPrompt::new`. -/
def SelectPrompt.new {α : Type} (message : List Char) (choices : List α) :
    SelectPrompt α :=
  { message := message, choices := choices, state := .Created, current := 0,
    limit := 10 }

/-- Mirror of `SelectPrompt::handle_key_event`. -/
def SelectPrompt.handle_key_event {α : Type} (s : SelectPrompt α)
    (e : KeyEvent) : SelectPrompt α :=
  if is_abort_event e then { s with state := .Aborted } else
  if e.modifiers = Modifiers.empty then
    match e.code with
    | .enter => { s with state := .Success }
    | .home => { s with current := 0 }
    | .endKey => { s with current := s.choices.length - 1 }
    | .char 'k' | .up => { s with current := s.current - 1 }
    | .char 'j' | .down =>
        { s with current := min (s.current + 1) (s.choices.length - 1) }
    | _ => s
  else s

/-- Mirror of the state changes performed by `SelectPrompt::display`:
the `Created -> Running` transition. -/
def SelectPrompt.display_update {α : Type} (s : SelectPrompt α) :
    SelectPrompt α :=
  if s.state = .Created then { s with state := .Running } else s

/-- Mirror of `autocomplete::AutocompletePrompt`.  The `filter` field holds the
pluggable `fn(input: &str, choices: &Vec<T>) -> Vec<T>`. -/
structure AutocompletePrompt (α : Type) where
  message : List Char
  state : PromptState
  choices : List α
  current : Nat
  limit : Nat
  input : List Char
  cursor : Nat
  filter : List Char → List α → List α

/-- Mirror of `AutocompletePrompt::new`; the `Display` bound of the default
`simple_filter` is modelled by the explicit `disp` argument. -/
def AutocompletePrompt.new {α : Type} (disp : α → List Char)
    (message : List Char) (choices : List α) : AutocompletePrompt α :=
  { message := message, choices := choices, state := .Created, current := 0,
    limit := 10, input := [], cursor := 0, filter := simple_filter disp }

/-- Mirror of `AutocompletePrompt::handle_key_event`. -/
def AutocompletePrompt.handle_key_event {α : Type} (s : AutocompletePrompt α)
    (e : KeyEvent) : AutocompletePrompt α :=
  if is_abort_event e then { s with state := .Aborted } else
  if e.modifiers = Modifiers.empty then
    match e.code with
    | .enter => { s with state := .Success }
    | .home => { s with current := 0 }
    | .endKey => { s with current := s.choices.length - 1 }
    | .up => { s with current := s.current - 1 }
    | .down => { s with current := min (s.current + 1) (s.choices.length - 1) }
    | .backspace =>
        let c := s.cursor - 1
        { s with cursor := c,
                 input := if c < s.input.length then s.input.eraseIdx c
                          else s.input }
    | .left => { s with cursor := s.cursor - 1 }
    | .right => { s with cursor := min (s.cursor + 1) s.input.length }
    | .char c =>
        { s with input := insertAt s.input s.cursor c, cursor := s.cursor + 1 }
    | _ => s
  else s

/-- Mirror of the state changes performed by `AutocompletePrompt::display`: clamp
`current` into the filtered view, then the `Created -> Running`
transition (in source order: the clamp happens before the state check). -/
def AutocompletePrompt.display_update {α : Type} (s : AutocompletePrompt α) :
    AutocompletePrompt α :=
  let filtered := s.filter s.input s.choices
  let s := { s with current := min s.current (filtered.length - 1) }
  if s.state = .Created then { s with state := .Running } else s

/-- Value of the `limit` actually passed to `calc_entries` by
`AutocompletePrompt::display`: `min(self.limit, terminal_height - 1)`. -/
def AutocompletePrompt.effective_limit {α : Type} (termHeight : Nat)
    (s : AutocompletePrompt α) : Nat :=
  min s.limit (termHeight - 1)

/-- Mirror of the argument of the `cursor::MoveUp` issued at the start of
`AutocompletePrompt::display` (the erase step), as a function of the state
the call receives: `none` on the first (`Created`) render, otherwise
`end_index - start_index` of the window computed from the already
re-filtered and re-clamped state. -/
def AutocompletePrompt.erase_count {α : Type} (termHeight : Nat)
    (s : AutocompletePrompt α) : Option Nat :=
  let filtered := s.filter s.input s.choices
  let cur := min s.current (filtered.length - 1)
  let se := calc_entries cur filtered.length (s.effective_limit termHeight)
  if s.state = .Created then none else some (se.2 - se.1)

/-- Count of rows `AutocompletePrompt::display` draws below the
message/input line, as a function of the state the call receives: one row
per visible window entry, or the single "Nothing matched your search"
placeholder row when the window is empty, and none on a done state. -/
def AutocompletePrompt.rows_drawn {α : Type} (termHeight : Nat)
    (s : AutocompletePrompt α) : Nat :=
  let filtered := s.filter s.input s.choices
  let cur := min s.current (filtered.length - 1)
  let se := calc_entries cur filtered.length (s.effective_limit termHeight)
  let state' := if s.state = .Created then PromptState.Running else s.state
  if state'.is_done then 0
  else if se.1 = se.2 then 1
  else se.2 - se.1

/-- Mirror of `multi_select::MultiSelectPrompt`.  The `filter` field holds the
pluggable `fn(input: &str, choice: &T) -> bool`. -/
structure MultiSelectPrompt (α : Type) where
  message : List Char
  state : PromptState
  choices : List α
  selected : List Bool
  current : Nat
  limit : Nat
  search_str : List Char
  cursor : Nat
  filter : List Char → α → Bool

/-- Mirror of `MultiSelectPrompt::new`. -/
def MultiSelectPrompt.new {α : Type} (disp : α → List Char)
    (message : List Char) (choices : List α) : MultiSelectPrompt α :=
  { message := message, choices := choices, state := .Created,
    selected := choices.map (fun _ => false), current := 0, limit := 10,
    search_str := [], cursor := 0, filter := contains_filter disp }

/-- Mirror of `Iterator::position(|c| c == *choice)`: index of the first element
equal to `a`. -/
def firstIdxEq {α : Type} [DecidableEq α] : List α → α → Option Nat
  | [], _ => none
  | x :: xs, a => if x = a then some 0 else (firstIdxEq xs a).map (· + 1)

/-- Mirror of the assignment in the Space arm of
`MultiSelectPrompt::handle_key_event`:
`self.selected[i] = !self.selected[i]`. -/
def toggle_selected (selected : List Bool) (i : Nat) : List Bool :=
  selected.set i (!(selected.getD i false))

/-- Mirror of `MultiSelectPrompt::handle_key_event`. -/
def MultiSelectPrompt.handle_key_event {α : Type} [DecidableEq α]
    (s : MultiSelectPrompt α) (e : KeyEvent) : MultiSelectPrompt α :=
  if is_abort_event e then { s with state := .Aborted } else
  let filtered := s.choices.filter (fun x => s.filter s.search_str x)
  let last_pos := filtered.length - 1
  if e.modifiers = Modifiers.empty then
    match e.code with
    | .enter => { s with state := .Success }
    | .home => { s with current := 0 }
    | .endKey => { s with current := s.choices.length - 1 }
    | .up =>
        { s with current := if s.current = 0 then last_pos else s.current - 1 }
    | .down => { s with current := (s.current + 1) % (last_pos + 1) }
    | .backspace =>
        let c := s.cursor - 1
        { s with cursor := c,
                 search_str := if c < s.search_str.length
                               then s.search_str.eraseIdx c
                               else s.search_str }
    | .left => { s with cursor := s.cursor - 1 }
    | .right => { s with cursor := min (s.cursor + 1) s.search_str.length }
    | .char ' ' =>
        match filtered.get? s.current with
        | some choice =>
            match firstIdxEq s.choices choice with
            | some i => { s with selected := toggle_selected s.selected i }
            | none => s
        | none => s
    | .char c =>
        { s with search_str := insertAt s.search_str s.cursor c,
                 cursor := s.cursor + 1 }
    | _ => s
  else s

/-- Mirror of the state changes performed by `MultiSelectPrompt::display`: clamp
`current` into the filtered view, then the `Created -> Running`
transition. -/
def MultiSelectPrompt.display_update {α : Type} (s : MultiSelectPrompt α) :
    MultiSelectPrompt α :=
  let filtered := s.choices.filter (fun x => s.filter s.search_str x)
  let s := { s with current := min s.current (filtered.length - 1) }
  if s.state = .Created then { s with state := .Running } else s

/-- Mirror of the value `MultiSelectPrompt::run` resolves with on `Success`:
the candidates whose selection flag is true, by `zip`/`filter`/`map`
exactly as in the source. -/
def MultiSelectPrompt.resolve {α : Type} (s : MultiSelectPrompt α) : List α :=
  ((s.choices.zip s.selected).filter (fun p => p.2)).map Prod.fst

/-- Mirror of `text::Style`. -/
inductive Style where
  | Normal
  | Password
  | Invisible
deriving DecidableEq, Repr

/-- Mirror of `text::TextPrompt`. -/
structure TextPrompt where
  message : List Char
  state : PromptState
  input : List Char
  cursor : Nat
  style : Style
  validator : Option (List Char → Except (List Char) Unit)
  error : Option (List Char)

/-- Mirror of `TextPrompt::new`. -/
def TextPrompt.new (message : List Char) : TextPrompt :=
  { message := message, state := .Created, input := [], cursor := 0,
    style := .Normal, validator := none, error := none }

/-- Mirror of `TextPrompt::with_validator`. -/
def TextPrompt.with_validator (s : TextPrompt)
    (v : List Char → Except (List Char) Unit) : TextPrompt :=
  { s with validator := some v }

/-- Mirror of `TextPrompt::handle_key_event`. -/
def TextPrompt.handle_key_event (s : TextPrompt) (e : KeyEvent) : TextPrompt :=
  if is_abort_event e then { s with state := .Aborted } else
  if e.modifiers = Modifiers.empty then
    match e.code with
    | .enter => { s with state := .Validate }
    | .backspace =>
        let c := s.cursor - 1
        { s with cursor := c,
                 input := if c < s.input.length then s.input.eraseIdx c
                          else s.input }
    | .left => { s with cursor := s.cursor - 1 }
    | .right => { s with cursor := min (s.cursor + 1) s.input.length }
    | .home => { s with cursor := 0 }
    | .endKey => { s with cursor := s.input.length }
    | .char c =>
        { s with input := insertAt s.input s.cursor c, cursor := s.cursor + 1 }
    | _ => s
  else s

/-- Mirror of the `PromptState::Validate` handling inside `TextPrompt::run`, executed
between the event match and the re-render. -/
def TextPrompt.validate_step (s : TextPrompt) : TextPrompt :=
  if s.state = .Validate then
    match s.validator with
    | some v =>
        match v s.input with
        | .ok _ => { s with state := .Success }
        | .error msg => { s with error := some msg, state := .Running }
    | none => { s with state := .Success }
  else s

/-- Mirror of `confirm::ConfirmPrompt`. -/
structure ConfirmPrompt where
  message : List Char
  state : PromptState
  answer : Bool
  initial : Option Bool
deriving DecidableEq, Repr

/-- Mirror of `ConfirmPrompt::new`. -/
def ConfirmPrompt.new (message : List Char) : ConfirmPrompt :=
  { message := message, state := .Created, answer := false, initial := none }

/-- Mirror of `ConfirmPrompt::handle_key_event`. -/
def ConfirmPrompt.handle_key_event (s : ConfirmPrompt) (e : KeyEvent) :
    ConfirmPrompt :=
  if is_abort_event e then { s with state := .Aborted } else
  if e.modifiers = Modifiers.empty then
    match e.code with
    | .enter =>
        match s.initial with
        | some i => { s with answer := i, state := .Success }
        | none => s
    | .char 'y' => { s with answer := true, state := .Success }
    | .char 'n' => { s with answer := false, state := .Success }
    | _ => s
  else s

/-- Model of one item produced by `reader.next()` in the `run` loop, together with
whether the `self.display()?` call of that iteration fails.  `key` is
`Some(Ok(Event::Key(..)))`, `other` covers `Some(Ok(_))` non-key events and
`None`, and `readErr` is `Some(Err(..))`. -/
inductive RunInput where
  | key (e : KeyEvent) (dispFail : Bool)
  | other (dispFail : Bool)
  | readErr
deriving Repr

/-- Model of how a `run` call returns, with the raw-mode flag the terminal is left
in: `success`/`aborted` are `Ok(Some(..))`/`Ok(None)`, `ioError` is an
`Err(..)` return, `panicked` models an out-of-bounds index inside `run`,
and `pending` means the modelled input list ran out with the loop still
going (raw mode still held). -/
inductive RunOutcome (β : Type) where
  | success (a : β) (raw : Bool)
  | aborted (raw : Bool)
  | ioError (raw : Bool)
  | panicked (raw : Bool)
  | pending (raw : Bool)
deriving Repr, DecidableEq

/-- Bundle of the per-prompt pieces the `run` loop is built from: the event handler,
the post-event step (`Validate` processing for text prompts, identity
elsewhere), the state changes of `display`, the terminal-state tests, and
the resolution value (`none` models an out-of-bounds index while
resolving). -/
structure Driver (σ β : Type) where
  handle : σ → KeyEvent → σ
  postHandle : σ → σ
  dispUpdate : σ → σ
  isAborted : σ → Bool
  isSuccess : σ → Bool
  answer : σ → Option β

/-- Model of the body of the `run` loop, past the initial render.  Mirrors the
source structure shared by all five prompts: on a read error raw mode is
disabled and the error returned; on a key the handler (and for text the
validation step) runs; then `display()?` — whose failure is returned
**without** touching raw mode, as in the source — then the terminal-state
check, which disables raw mode before resolving. -/
def runLoop {σ β : Type} (d : Driver σ β) : σ → List RunInput → RunOutcome β
  | _, [] => .pending true
  | _, .readErr :: _ => .ioError false
  | s, .key e dispFail :: rest =>
      let s1 := d.postHandle (d.handle s e)
      if dispFail then .ioError true
      else
        let s2 := d.dispUpdate s1
        if d.isAborted s2 then .aborted false
        else if d.isSuccess s2 then
          match d.answer s2 with
          | some a => .success a false
          | none => .panicked false
        else runLoop d s2 rest
  | s, .other dispFail :: rest =>
      let s1 := d.postHandle s
      if dispFail then .ioError true
      else
        let s2 := d.dispUpdate s1
        if d.isAborted s2 then .aborted false
        else if d.isSuccess s2 then
          match d.answer s2 with
          | some a => .success a false
          | none => .panicked false
        else runLoop d s2 rest

/-- Model of a whole `run` call: `enable_raw_mode()` (assumed to succeed), the
initial `self.display()?` — which on failure likewise returns with raw
mode still enabled — then the loop. -/
def runModel {σ β : Type} (d : Driver σ β) (s : σ) (inputs : List RunInput)
    (initDispFail : Bool) : RunOutcome β :=
  if initDispFail then .ioError true else runLoop d (d.dispUpdate s) inputs

/-- Driver instance for `select.rs`; resolution indexes
`self.choices[self.current]`. -/
def selectDriver (α : Type) : Driver (SelectPrompt α) α :=
  { handle := SelectPrompt.handle_key_event
    postHandle := id
    dispUpdate := SelectPrompt.display_update
    isAborted := fun s => s.state == .Aborted
    isSuccess := fun s => s.state == .Success
    answer := fun s => s.choices.get? s.current }

/-- Driver instance for `autocomplete.rs`; resolution indexes
`filtered_choices[self.current]` on the freshly recomputed filtered
view. -/
def autocompleteDriver (α : Type) : Driver (AutocompletePrompt α) α :=
  { handle := AutocompletePrompt.handle_key_event
    postHandle := id
    dispUpdate := AutocompletePrompt.display_update
    isAborted := fun s => s.state == .Aborted
    isSuccess := fun s => s.state == .Success
    answer := fun s => (s.filter s.input s.choices).get? s.current }

/-- Driver instance for `multi_select.rs`. -/
def multiSelectDriver (α : Type) [DecidableEq α] :
    Driver (MultiSelectPrompt α) (List α) :=
  { handle := MultiSelectPrompt.handle_key_event
    postHandle := id
    dispUpdate := MultiSelectPrompt.display_update
    isAborted := fun s => s.state == .Aborted
    isSuccess := fun s => s.state == .Success
    answer := fun s => some s.resolve }

/-- Driver instance for `text.rs`, whose loop additionally runs the
validation step between the event match and the render. -/
def textDriver : Driver TextPrompt (List Char) :=
  { handle := TextPrompt.handle_key_event
    postHandle := TextPrompt.validate_step
    dispUpdate := id
    isAborted := fun s => s.state == .Aborted
    isSuccess := fun s => s.state == .Success
    answer := fun s => some s.input }

/-- Driver instance for `confirm.rs`. -/
def confirmDriver : Driver ConfirmPrompt Bool :=
  { handle := ConfirmPrompt.handle_key_event
    postHandle := id
    dispUpdate := id
    isAborted := fun s => s.state == .Aborted
    isSuccess := fun s => s.state == .Success
    answer := fun s => some s.answer }

/-- A key press with no modifiers held. -/
def plainKey (c : KeyCode) : KeyEvent := ⟨c, Modifiers.empty⟩

/-- Formalization of the spec's description of the multi-select resolution value:
`[item for i, item in enumerate(CandidateSet) if selected[i]]`
(original index order). -/
def specSelectedSubseq {α : Type} (choices : List α) (selected : List Bool) :
    List α :=
  (choices.enum.filter (fun p => selected.getD p.1 false)).map Prod.snd

section Lemmas

variable {α : Type}

theorem toggle_selected_twice (l : List Bool) (i : Nat) (hi : i < l.length) :
    toggle_selected (toggle_selected l i) i = l := by
  induction l generalizing i with
  | nil => simp at hi
  | cons x xs ih =>
    cases i with
    | zero => simp [toggle_selected]
    | succ n =>
      have hn : n < xs.length := by simpa using hi
      simpa [toggle_selected] using ih n hn

theorem getD_set_ne (l : List α) (i k : Nat) (a d : α) (h : k ≠ i) :
    (l.set i a).getD k d = l.getD k d := by
  induction l generalizing i k with
  | nil => simp
  | cons x xs ih =>
    cases i with
    | zero =>
      cases k with
      | zero => exact absurd rfl h
      | succ m => simp
    | succ n =>
      cases k with
      | zero => simp
      | succ m =>
        have : m ≠ n := fun hc => h (by simp [hc])
        simpa using ih n m this

theorem firstIdxEq_spec [DecidableEq α] (l : List α) (a : α) (h : a ∈ l) :
    ∃ j, firstIdxEq l a = some j ∧ l.get? j = some a ∧
      ∀ k, k < j → l.get? k ≠ some a := by
  induction l with
  | nil => simp at h
  | cons x xs ih =>
    by_cases hx : x = a
    · exact ⟨0, by simp [firstIdxEq, hx], by simp [hx], by intro k hk; omega⟩
    · have hmem : a ∈ xs := by
        rcases List.mem_cons.mp h with h1 | h1
        · exact absurd h1.symm hx
        · exact h1
      obtain ⟨j, hj, hget, hlt⟩ := ih hmem
      refine ⟨j + 1, by simp [firstIdxEq, hx, hj], by simpa using hget, ?_⟩
      intro k hk
      cases k with
      | zero => simpa using hx
      | succ m => simpa using hlt m (by omega)

theorem map_snd_filter_enumFrom (cs : List α) (g : Nat → Bool) (n : Nat) :
    ((cs.enumFrom n).filter (fun p => g p.1)).map Prod.snd
      = ((cs.enumFrom 0).filter (fun p => g (p.1 + n))).map Prod.snd := by
  induction cs generalizing g n with
  | nil => simp
  | cons c cs' ih =>
    have h1 := ih g (n + 1)
    have h2 := ih (fun i => g (i + n)) 1
    have hfun : (fun p : Nat × α => g (p.1 + (n + 1)))
        = fun p : Nat × α => g (p.1 + 1 + n) := by
      funext p; congr 1; omega
    simp only [List.enumFrom_cons, List.filter_cons, Nat.zero_add]
    by_cases hg : g n
    · simp only [hg, if_true, List.map_cons]
      rw [h1, h2, hfun]
    · simp only [hg, Bool.false_eq_true, if_false]
      rw [h1, h2, hfun]

theorem specSelectedSubseq_cons (c : α) (cs : List α) (b : Bool)
    (bs : List Bool) :
    specSelectedSubseq (c :: cs) (b :: bs)
      = (if b then [c] else []) ++ specSelectedSubseq cs bs := by
  have key : ((cs.enumFrom 1).filter
        (fun p => (b :: bs).getD p.1 false)).map Prod.snd
      = specSelectedSubseq cs bs := by
    rw [map_snd_filter_enumFrom cs (fun i => (b :: bs).getD i false) 1]
    simp only [specSelectedSubseq, List.enum, List.getD_cons_succ]
  unfold specSelectedSubseq
  simp only [List.enum, List.enumFrom_cons, List.filter_cons,
    List.getD_cons_zero]
  cases b with
  | false =>
    simp only [Bool.false_eq_true, if_false, List.nil_append]
    exact key
  | true =>
    simp only [if_true, List.map_cons, List.singleton_append]
    rw [key]
    simp [specSelectedSubseq, List.enum]

theorem resolve_eq_specSelectedSubseq (cs : List α) (bs : List Bool)
    (hlen : bs.length = cs.length) :
    ((cs.zip bs).filter (fun p => p.2)).map Prod.fst
      = specSelectedSubseq cs bs := by
  induction cs generalizing bs with
  | nil =>
    cases bs with
    | nil => simp [specSelectedSubseq]
    | cons b bs' => simp at hlen
  | cons c cs' ih =>
    cases bs with
    | nil => simp at hlen
    | cons b bs' =>
      have hlen' : bs'.length = cs'.length := by simpa using hlen
      rw [specSelectedSubseq_cons]
      cases b with
      | true => simpa using ih bs' hlen'
      | false => simpa using ih bs' hlen'

end Lemmas

/-- C2: for every `cursor ∈ [0, total)` and `limit > 0`,
`calc_entries cursor total limit = (s, e)` satisfies
`0 ≤ s ≤ cursor < e ≤ total` and `e - s ≤ limit`; moreover
`calc_entries 0 20 10 = (0, 10)`, `calc_entries 19 20 10 = (10, 20)`,
`calc_entries 10 20 10 = (5, 15)`, and for `total = 0` the result is
`(0, 0)`. -/
theorem calc_entries_window_invariant :
    (∀ current total limit : Nat, current < total → 0 < limit →
      0 ≤ (calc_entries current total limit).1 ∧
      (calc_entries current total limit).1 ≤ current ∧
      current < (calc_entries current total limit).2 ∧
      (calc_entries current total limit).2 ≤ total ∧
      (calc_entries current total limit).2
        - (calc_entries current total limit).1 ≤ limit) ∧
    calc_entries 0 20 10 = (0, 10) ∧
    calc_entries 19 20 10 = (10, 20) ∧
    calc_entries 10 20 10 = (5, 15) ∧
    (∀ current limit : Nat, calc_entries current 0 limit = (0, 0)) := by
  refine ⟨?_, by decide, by decide, by decide, ?_⟩
  · intro c t l hc hl
    simp only [calc_entries]
    omega
  · intro c l
    simp only [calc_entries, Prod.mk.injEq]
    omega

/-- Witness for C2 at `cursor = 3`, `total = 20`, `limit = 10`. -/
theorem calc_entries_window_invariant_witness :
    0 ≤ (calc_entries 3 20 10).1 ∧ (calc_entries 3 20 10).1 ≤ 3 ∧
    3 < (calc_entries 3 20 10).2 ∧ (calc_entries 3 20 10).2 ≤ 20 ∧
    (calc_entries 3 20 10).2 - (calc_entries 3 20 10).1 ≤ 10 :=
  calc_entries_window_invariant.1 3 20 10 (by decide) (by decide)

/-- C6: with 3 items, no filter text and the cursor at 0 (the state
right after the first render of a freshly constructed prompt): Up leaves
the single-select cursor at 0 (clamp) but moves the multi-select cursor to
2 (wrap); End moves the cursor to 2 on both. -/
theorem select_clamp_multi_wrap_end_three_items :
    ((SelectPrompt.new "m".data ["a".data, "b".data, "c".data])
        |>.display_update.handle_key_event (plainKey .up)).current = 0 ∧
    ((SelectPrompt.new "m".data ["a".data, "b".data, "c".data])
        |>.display_update.handle_key_event (plainKey .endKey)).current = 2 ∧
    ((MultiSelectPrompt.new id "m".data ["a".data, "b".data, "c".data])
        |>.display_update.handle_key_event (plainKey .up)).current = 2 ∧
    ((MultiSelectPrompt.new id "m".data ["a".data, "b".data, "c".data])
        |>.display_update.handle_key_event (plainKey .endKey)).current = 2 := by
  decide

/-- C10: a `ConfirmPrompt` with no initial default treats an
unmodified Enter as a complete no-op (state, answer and every other field
untouched), and from `Running` only an abort key or an unmodified
`y`/`n` can move it to a terminal state. -/
theorem confirm_enter_no_initial_noop (s : ConfirmPrompt)
    (h : s.initial = none) :
    s.handle_key_event (plainKey .enter) = s ∧
    (∀ e : KeyEvent, s.state = .Running →
      ((s.handle_key_event e).state.is_done = true →
        is_abort_event e = true ∨ e = plainKey (.char 'y') ∨
          e = plainKey (.char 'n'))) := by
  constructor
  · simp [ConfirmPrompt.handle_key_event, plainKey, is_abort_event,
      Modifiers.empty, Modifiers.controlOnly, h]
  · intro e hrun hdone
    by_cases hab : is_abort_event e = true
    · exact Or.inl hab
    · rcases e with ⟨code, mods⟩
      by_cases hm : mods = Modifiers.empty
      · subst hm
        cases code with
        | char c =>
          by_cases hy : c = 'y'
          · subst hy; right; left; rfl
          · by_cases hn : c = 'n'
            · subst hn; right; right; rfl
            · simp_all [ConfirmPrompt.handle_key_event, hy, hn,
                PromptState.is_done, plainKey, hab]
        | enter =>
          simp_all [ConfirmPrompt.handle_key_event, PromptState.is_done,
            plainKey, h, is_abort_event, Modifiers.empty, Modifiers.controlOnly]
        | esc =>
          simp_all [ConfirmPrompt.handle_key_event, PromptState.is_done,
            plainKey, h, is_abort_event, Modifiers.empty, Modifiers.controlOnly]
        | backspace =>
          simp_all [ConfirmPrompt.handle_key_event, PromptState.is_done,
            plainKey, h, is_abort_event, Modifiers.empty, Modifiers.controlOnly]
        | left =>
          simp_all [ConfirmPrompt.handle_key_event, PromptState.is_done,
            plainKey, h, is_abort_event, Modifiers.empty, Modifiers.controlOnly]
        | right =>
          simp_all [ConfirmPrompt.handle_key_event, PromptState.is_done,
            plainKey, h, is_abort_event, Modifiers.empty, Modifiers.controlOnly]
        | up =>
          simp_all [ConfirmPrompt.handle_key_event, PromptState.is_done,
            plainKey, h, is_abort_event, Modifiers.empty, Modifiers.controlOnly]
        | down =>
          simp_all [ConfirmPrompt.handle_key_event, PromptState.is_done,
            plainKey, h, is_abort_event, Modifiers.empty, Modifiers.controlOnly]
        | home =>
          simp_all [ConfirmPrompt.handle_key_event, PromptState.is_done,
            plainKey, h, is_abort_event, Modifiers.empty, Modifiers.controlOnly]
        | endKey =>
          simp_all [ConfirmPrompt.handle_key_event, PromptState.is_done,
            plainKey, h, is_abort_event, Modifiers.empty, Modifiers.controlOnly]
        | otherKey =>
          simp_all [ConfirmPrompt.handle_key_event, PromptState.is_done,
            plainKey, h, is_abort_event, Modifiers.empty, Modifiers.controlOnly]
      · simp_all [ConfirmPrompt.handle_key_event, PromptState.is_done]

/-- Witness for C10: a freshly constructed prompt in `Running` state;
Enter is a no-op and only `y`/`n`/abort can finish it. -/
theorem confirm_enter_no_initial_noop_witness :
    ({ ConfirmPrompt.new "m".data with state := .Running
        }.handle_key_event (plainKey .enter)
      = { ConfirmPrompt.new "m".data with state := .Running }) ∧
    (∀ e : KeyEvent,
      ({ ConfirmPrompt.new "m".data with state := .Running }
          : ConfirmPrompt).state = .Running →
      (({ ConfirmPrompt.new "m".data with state := .Running
          }.handle_key_event e).state.is_done = true →
        is_abort_event e = true ∨ e = plainKey (.char 'y') ∨
          e = plainKey (.char 'n'))) :=
  confirm_enter_no_initial_noop
    { ConfirmPrompt.new "m".data with state := .Running } rfl

/-- C1 (violated by the code): concrete autocomplete session, choices
`["aa", "b"]`, terminal height 30: the render after typing `'a'` and the
render after the following Backspace both start from `Running` state; the
second render's erase (`MoveUp` count) is 2 rows although the previous
render drew only 1 row — the erase count is computed from the post-event
window, not from the previous frame's drawn row count. -/
theorem autocomplete_erase_ne_prev_rows :
    (let s0 := AutocompletePrompt.new id "m".data ["aa".data, "b".data]
     let s1 := s0.display_update
     let s2 := s1.handle_key_event (plainKey (.char 'a'))
     let s3 := s2.display_update.handle_key_event (plainKey .backspace)
     s0.rows_drawn 30 = 2 ∧ s2.erase_count 30 = some 1 ∧
       s2.rows_drawn 30 = 1 ∧ s3.erase_count 30 = some 2 ∧
       s2.state = .Running ∧ s3.state = .Running) := by
  decide

/-- C3 (violated by the code): autocomplete with choices `["a"]`:
typing `'z'` empties the filtered view, and Enter then makes
`handle_key_event` set `Success` (not a no-op), after which `run` indexes
`filtered_choices[self.current]` on an empty vector — modelled as the
`panicked` outcome.  The second conjunct shows the filtered view is indeed
empty at that point. -/
theorem autocomplete_enter_empty_filtered_panics :
    runModel (autocompleteDriver (List Char))
        (AutocompletePrompt.new id "m".data ["a".data])
        [.key (plainKey (.char 'z')) false, .key (plainKey .enter) false]
        false
      = .panicked false ∧
    simple_filter id "z".data ["a".data] = [] ∧
    ((AutocompletePrompt.new id "m".data ["a".data])
        |>.display_update.handle_key_event (plainKey (.char 'z'))
        |>.display_update.handle_key_event (plainKey .enter)).state
      = .Success := by
  decide

/-- C9 (violated by the code): a select prompt whose re-render after
a key event fails (`self.display()?` in the loop) returns the I/O error
with raw mode still enabled: the `?` on `display` propagates without the
`disable_raw_mode` call that the read-error, abort and success paths
perform.  The second conjunct shows the abort path, for contrast, does
disable raw mode. -/
theorem display_error_leaves_raw_mode_enabled :
    runModel (selectDriver (List Char)) (SelectPrompt.new "m".data ["x".data])
        [.key (plainKey .up) true] false
      = .ioError true ∧
    runModel (selectDriver (List Char)) (SelectPrompt.new "m".data ["x".data])
        [.key ⟨.char 'c', Modifiers.controlOnly⟩ false] false
      = .aborted false ∧
    runModel (selectDriver (List Char)) (SelectPrompt.new "m".data ["x".data])
        [.readErr] false
      = .ioError false := by
  decide

/-- C7 counterexample: multi-select over the duplicate candidate list
`['a', 'a']` with empty filter text and the cursor on the second entry
(original index 1): Space toggles Selection State entry 0 — the first
candidate equal to the cursor item — so the result is `[true, false]`,
not the `[false, true]` the claim requires. -/
theorem multi_select_space_duplicate_counterexample :
    ({ MultiSelectPrompt.new (fun c => [c]) "m".data ['a', 'a'] with
        state := .Running, current := 1
        }.handle_key_event (plainKey (.char ' '))).selected = [true, false] ∧
    ([true, false] : List Bool) ≠ [false, true] := by
  decide

/-- C8 counterexample: text prompt with buffer `"ab"` and the input
cursor at position 0: Backspace does not leave the buffer unchanged — it
removes the first character, yielding `"b"`. -/
theorem backspace_cursor_zero_counterexample :
    ({ TextPrompt.new "m".data with
        state := .Running
        input := "ab".data
        cursor := 0 }.handle_key_event (plainKey .backspace)).input = "b".data ∧
    "b".data ≠ "ab".data := by
  decide

/-- C4: for every prompt of any of the five kinds, in any state with
any buffered input, an abort key event (Ctrl-C, Ctrl-D or unmodified
Escape) makes `handle_key_event` move the state to `Aborted` while
changing nothing else — overriding all other handling — and the `run`
loop then resolves to `Ok(None)` (the `aborted` outcome, raw mode
disabled), regardless of the remaining input, buffered text or pending
validation error. -/
theorem abort_event_precedence {α : Type} [DecidableEq α]
    (e : KeyEvent) (h : is_abort_event e = true)
    (s₁ : SelectPrompt α) (s₂ : AutocompletePrompt α)
    (s₃ : MultiSelectPrompt α) (s₄ : TextPrompt) (s₅ : ConfirmPrompt)
    (r₁ r₂ r₃ r₄ r₅ : List RunInput) :
    s₁.handle_key_event e = { s₁ with state := .Aborted } ∧
    s₂.handle_key_event e = { s₂ with state := .Aborted } ∧
    s₃.handle_key_event e = { s₃ with state := .Aborted } ∧
    s₄.handle_key_event e = { s₄ with state := .Aborted } ∧
    s₅.handle_key_event e = { s₅ with state := .Aborted } ∧
    runLoop (selectDriver α) s₁ (.key e false :: r₁) = .aborted false ∧
    runLoop (autocompleteDriver α) s₂ (.key e false :: r₂) = .aborted false ∧
    runLoop (multiSelectDriver α) s₃ (.key e false :: r₃) = .aborted false ∧
    runLoop textDriver s₄ (.key e false :: r₄) = .aborted false ∧
    runLoop confirmDriver s₅ (.key e false :: r₅) = .aborted false := by
  refine ⟨?_, ?_, ?_, ?_, ?_, ?_, ?_, ?_, ?_, ?_⟩
  · simp [SelectPrompt.handle_key_event, h]
  · simp [AutocompletePrompt.handle_key_event, h]
  · simp [MultiSelectPrompt.handle_key_event, h]
  · simp [TextPrompt.handle_key_event, h]
  · simp [ConfirmPrompt.handle_key_event, h]
  · simp [runLoop, selectDriver, SelectPrompt.handle_key_event, h,
      SelectPrompt.display_update]
  · simp [runLoop, autocompleteDriver, AutocompletePrompt.handle_key_event, h,
      AutocompletePrompt.display_update]
  · simp [runLoop, multiSelectDriver, MultiSelectPrompt.handle_key_event, h,
      MultiSelectPrompt.display_update]
  · simp [runLoop, textDriver, TextPrompt.handle_key_event, h,
      TextPrompt.validate_step]
  · simp [runLoop, confirmDriver, ConfirmPrompt.handle_key_event, h]

/-- Witness for C4: Ctrl-C on freshly constructed prompts of all five
kinds aborts each of them and resolves the run loop to the aborted
outcome. -/
theorem abort_event_precedence_witness :
    (SelectPrompt.new "m".data [] : SelectPrompt (List Char)
        ).handle_key_event ⟨.char 'c', Modifiers.controlOnly⟩
      = { (SelectPrompt.new "m".data [] : SelectPrompt (List Char)) with
          state := .Aborted } ∧
    (AutocompletePrompt.new id "m".data []
        ).handle_key_event ⟨.char 'c', Modifiers.controlOnly⟩
      = { AutocompletePrompt.new id "m".data [] with state := .Aborted } ∧
    (MultiSelectPrompt.new id "m".data []
        ).handle_key_event ⟨.char 'c', Modifiers.controlOnly⟩
      = { MultiSelectPrompt.new id "m".data [] with state := .Aborted } ∧
    (TextPrompt.new "m".data
        ).handle_key_event ⟨.char 'c', Modifiers.controlOnly⟩
      = { TextPrompt.new "m".data with state := .Aborted } ∧
    (ConfirmPrompt.new "m".data
        ).handle_key_event ⟨.char 'c', Modifiers.controlOnly⟩
      = { ConfirmPrompt.new "m".data with state := .Aborted } ∧
    runLoop (selectDriver (List Char)) (SelectPrompt.new "m".data [])
        [.key ⟨.char 'c', Modifiers.controlOnly⟩ false] = .aborted false ∧
    runLoop (autocompleteDriver (List Char))
        (AutocompletePrompt.new id "m".data [])
        [.key ⟨.char 'c', Modifiers.controlOnly⟩ false] = .aborted false ∧
    runLoop (multiSelectDriver (List Char))
        (MultiSelectPrompt.new id "m".data [])
        [.key ⟨.char 'c', Modifiers.controlOnly⟩ false] = .aborted false ∧
    runLoop textDriver (TextPrompt.new "m".data)
        [.key ⟨.char 'c', Modifiers.controlOnly⟩ false] = .aborted false ∧
    runLoop confirmDriver (ConfirmPrompt.new "m".data)
        [.key ⟨.char 'c', Modifiers.controlOnly⟩ false] = .aborted false :=
  abort_event_precedence ⟨.char 'c', Modifiers.controlOnly⟩ (by decide)
    (SelectPrompt.new "m".data []) (AutocompletePrompt.new id "m".data [])
    (MultiSelectPrompt.new id "m".data []) (TextPrompt.new "m".data)
    (ConfirmPrompt.new "m".data) [] [] [] [] []

/-- C5: for every multi-select prompt: toggling the Selection State
entry of the same original index twice returns Selection State to its
prior value, and when Enter resolves the run loop the `Success` value is
the subsequence of the Candidate Set whose selection flag is true, in
original index order, as described by `specSelectedSubseq`
(`[item for i, item in enumerate(CandidateSet) if selected[i]]`). -/
theorem multi_select_toggle_roundtrip_and_resolution {α : Type}
    [DecidableEq α] (s : MultiSelectPrompt α) (i : Nat)
    (hi : i < s.selected.length)
    (hlen : s.selected.length = s.choices.length) (rest : List RunInput) :
    toggle_selected (toggle_selected s.selected i) i = s.selected ∧
    runLoop (multiSelectDriver α) s (.key (plainKey .enter) false :: rest)
      = .success (specSelectedSubseq s.choices s.selected) false := by
  refine ⟨toggle_selected_twice s.selected i hi, ?_⟩
  have hres : s.resolve = specSelectedSubseq s.choices s.selected :=
    resolve_eq_specSelectedSubseq s.choices s.selected hlen
  simp [runLoop, multiSelectDriver, MultiSelectPrompt.handle_key_event,
    MultiSelectPrompt.display_update, plainKey, is_abort_event,
    Modifiers.empty, Modifiers.controlOnly, MultiSelectPrompt.resolve,
    ← hres, MultiSelectPrompt.resolve]

/-- Witness for C5: candidates `["a", "b"]` with selection `[true, false]`;
double-toggling index 0 restores the selection, and Enter resolves to the
selected subsequence. -/
theorem multi_select_toggle_roundtrip_and_resolution_witness :
    toggle_selected (toggle_selected [true, false] 0) 0 = [true, false] ∧
    runLoop (multiSelectDriver (List Char))
        { MultiSelectPrompt.new id "m".data ["a".data, "b".data] with
          state := .Running
          selected := [true, false] }
        [.key (plainKey .enter) false]
      = .success
          (specSelectedSubseq ["a".data, "b".data] [true, false]) false :=
  multi_select_toggle_roundtrip_and_resolution
    { MultiSelectPrompt.new id "m".data ["a".data, "b".data] with
      state := .Running
      selected := [true, false] }
    0 (by decide) (by decide) []

/-- C7 (amended): for every multi-select prompt whose filtered view
has an item under the cursor, Space toggles the Selection State entry at
the least original index whose candidate equals the cursor item — which is
the cursor item's own original index exactly when no earlier candidate
equals it — and leaves every other Selection State entry unchanged. -/
theorem multi_select_space_first_equal_toggle {α : Type} [DecidableEq α]
    (s : MultiSelectPrompt α) (choice : α)
    (hget : (s.choices.filter (fun x => s.filter s.search_str x)).get?
        s.current = some choice) :
    ∃ j, firstIdxEq s.choices choice = some j ∧
      s.handle_key_event (plainKey (.char ' '))
        = { s with selected := toggle_selected s.selected j } ∧
      s.choices.get? j = some choice ∧
      (∀ k, k < j → s.choices.get? k ≠ some choice) ∧
      (∀ k, k ≠ j →
        (s.handle_key_event (plainKey (.char ' '))).selected.getD k false
          = s.selected.getD k false) := by
  have hmem : choice ∈ s.choices := by
    have h1 : choice ∈ s.choices.filter (fun x => s.filter s.search_str x) :=
      List.get?_mem hget
    exact List.mem_of_mem_filter h1
  obtain ⟨j, hj, hgetj, hlt⟩ := firstIdxEq_spec s.choices choice hmem
  have hget' :
      (s.choices.filter (fun x => s.filter s.search_str x))[s.current]?
        = some choice := by
    rw [← List.get?_eq_getElem?]; exact hget
  have hhandle : s.handle_key_event (plainKey (.char ' '))
      = { s with selected := toggle_selected s.selected j } := by
    simp [MultiSelectPrompt.handle_key_event, plainKey, is_abort_event,
      Modifiers.empty, Modifiers.controlOnly, hget', hj]
  refine ⟨j, hj, hhandle, hgetj, hlt, ?_⟩
  intro k hk
  rw [hhandle]
  simp only [toggle_selected]
  exact getD_set_ne s.selected j k _ false hk

/-- Witness for C7's amended theorem at the duplicate-candidate prompt
`['a', 'a']` with the cursor on the second entry: the toggled index is the
first equal one. -/
theorem multi_select_space_first_equal_toggle_witness :
    ∃ j, firstIdxEq
        ({ MultiSelectPrompt.new (fun c => [c]) "m".data ['a', 'a'] with
          state := .Running, current := 1 } : MultiSelectPrompt Char).choices
        'a' = some j ∧
      ({ MultiSelectPrompt.new (fun c => [c]) "m".data ['a', 'a'] with
          state := .Running, current := 1 } : MultiSelectPrompt Char
          ).handle_key_event (plainKey (.char ' '))
        = { ({ MultiSelectPrompt.new (fun c => [c]) "m".data ['a', 'a'] with
              state := .Running, current := 1 } : MultiSelectPrompt Char) with
            selected := toggle_selected
              ({ MultiSelectPrompt.new (fun c => [c]) "m".data ['a', 'a'] with
                state := .Running, current := 1 }
                : MultiSelectPrompt Char).selected j } ∧
      ({ MultiSelectPrompt.new (fun c => [c]) "m".data ['a', 'a'] with
          state := .Running, current := 1 } : MultiSelectPrompt Char
          ).choices.get? j = some 'a' ∧
      (∀ k, k < j →
        ({ MultiSelectPrompt.new (fun c => [c]) "m".data ['a', 'a'] with
            state := .Running, current := 1 } : MultiSelectPrompt Char
            ).choices.get? k ≠ some 'a') ∧
      (∀ k, k ≠ j →
        (({ MultiSelectPrompt.new (fun c => [c]) "m".data ['a', 'a'] with
            state := .Running, current := 1 } : MultiSelectPrompt Char
            ).handle_key_event (plainKey (.char ' '))).selected.getD k false
          = ({ MultiSelectPrompt.new (fun c => [c]) "m".data ['a', 'a'] with
              state := .Running, current := 1 } : MultiSelectPrompt Char
              ).selected.getD k false) :=
  multi_select_space_first_equal_toggle
    { MultiSelectPrompt.new (fun c => [c]) "m".data ['a', 'a'] with
      state := .Running, current := 1 } 'a' (by decide)

/-- C8 (amended): in the text, autocomplete and multi-select
handlers, Backspace first moves the input cursor left by one (saturating
at 0) and then removes the character at the new cursor position when the
buffer extends past it: for cursor > 0 this removes exactly the character
before the old cursor, but at cursor 0 it removes the first character of a
non-empty buffer (`tail`) instead of leaving the buffer unchanged. -/
theorem backspace_saturating_behavior {α : Type} [DecidableEq α]
    (s₄ : TextPrompt) (h₄ : s₄.cursor ≤ s₄.input.length)
    (s₂ : AutocompletePrompt α) (h₂ : s₂.cursor ≤ s₂.input.length)
    (s₃ : MultiSelectPrompt α) (h₃ : s₃.cursor ≤ s₃.search_str.length) :
    (0 < s₄.cursor →
      s₄.handle_key_event (plainKey .backspace)
        = { s₄ with cursor := s₄.cursor - 1,
                    input := s₄.input.eraseIdx (s₄.cursor - 1) }) ∧
    (s₄.cursor = 0 →
      s₄.handle_key_event (plainKey .backspace)
        = { s₄ with input := s₄.input.tail }) ∧
    (0 < s₂.cursor →
      s₂.handle_key_event (plainKey .backspace)
        = { s₂ with cursor := s₂.cursor - 1,
                    input := s₂.input.eraseIdx (s₂.cursor - 1) }) ∧
    (s₂.cursor = 0 →
      s₂.handle_key_event (plainKey .backspace)
        = { s₂ with input := s₂.input.tail }) ∧
    (0 < s₃.cursor →
      s₃.handle_key_event (plainKey .backspace)
        = { s₃ with cursor := s₃.cursor - 1,
                    search_str := s₃.search_str.eraseIdx (s₃.cursor - 1) }) ∧
    (s₃.cursor = 0 →
      s₃.handle_key_event (plainKey .backspace)
        = { s₃ with search_str := s₃.search_str.tail }) := by
  refine ⟨?_, ?_, ?_, ?_, ?_, ?_⟩
  · intro hpos
    rcases s₄ with ⟨m4, st4, in4, c4, sty4, v4, er4⟩
    simp only at h₄ hpos ⊢
    have hlt : c4 - 1 < in4.length := by omega
    simp [TextPrompt.handle_key_event, plainKey, is_abort_event,
      Modifiers.empty, Modifiers.controlOnly, hlt]
  · intro hc
    rcases s₄ with ⟨m4, st4, in4, c4, sty4, v4, er4⟩
    simp only at hc ⊢
    subst hc
    cases in4 with
    | nil => simp [TextPrompt.handle_key_event, plainKey, is_abort_event,
        Modifiers.empty, Modifiers.controlOnly]
    | cons x xs => simp [TextPrompt.handle_key_event, plainKey,
        is_abort_event, Modifiers.empty, Modifiers.controlOnly,
        List.eraseIdx]
  · intro hpos
    rcases s₂ with ⟨m2, st2, ch2, cu2, li2, in2, c2, f2⟩
    simp only at h₂ hpos ⊢
    have hlt : c2 - 1 < in2.length := by omega
    simp [AutocompletePrompt.handle_key_event, plainKey, is_abort_event,
      Modifiers.empty, Modifiers.controlOnly, hlt]
  · intro hc
    rcases s₂ with ⟨m2, st2, ch2, cu2, li2, in2, c2, f2⟩
    simp only at hc ⊢
    subst hc
    cases in2 with
    | nil => simp [AutocompletePrompt.handle_key_event, plainKey,
        is_abort_event, Modifiers.empty, Modifiers.controlOnly]
    | cons x xs => simp [AutocompletePrompt.handle_key_event, plainKey,
        is_abort_event, Modifiers.empty, Modifiers.controlOnly,
        List.eraseIdx]
  · intro hpos
    rcases s₃ with ⟨m3, st3, ch3, se3, cu3, li3, ss3, c3, f3⟩
    simp only at h₃ hpos ⊢
    have hlt : c3 - 1 < ss3.length := by omega
    simp [MultiSelectPrompt.handle_key_event, plainKey, is_abort_event,
      Modifiers.empty, Modifiers.controlOnly, hlt]
  · intro hc
    rcases s₃ with ⟨m3, st3, ch3, se3, cu3, li3, ss3, c3, f3⟩
    simp only at hc ⊢
    subst hc
    cases ss3 with
    | nil => simp [MultiSelectPrompt.handle_key_event, plainKey,
        is_abort_event, Modifiers.empty, Modifiers.controlOnly]
    | cons x xs => simp [MultiSelectPrompt.handle_key_event, plainKey,
        is_abort_event, Modifiers.empty, Modifiers.controlOnly,
        List.eraseIdx]

/-- Witness for C8's amended theorem: buffer `"ab"` with cursor 2 (text),
cursor 1 (autocomplete) and cursor 0 (multi-select). -/
theorem backspace_saturating_behavior_witness :
    (0 < ({ TextPrompt.new "m".data with
        state := .Running
        input := "ab".data
        cursor := 2 } : TextPrompt).cursor →
      ({ TextPrompt.new "m".data with
        state := .Running
        input := "ab".data
        cursor := 2 } : TextPrompt).handle_key_event (plainKey .backspace)
        = { ({ TextPrompt.new "m".data with
            state := .Running
            input := "ab".data
            cursor := 2 } : TextPrompt) with
            cursor := 2 - 1, input := "ab".data.eraseIdx (2 - 1) }) ∧
    ((2 : Nat) = 0 →
      ({ TextPrompt.new "m".data with
        state := .Running
        input := "ab".data
        cursor := 2 } : TextPrompt).handle_key_event (plainKey .backspace)
        = { ({ TextPrompt.new "m".data with
            state := .Running
            input := "ab".data
            cursor := 2 } : TextPrompt) with input := "ab".data.tail }) ∧
    (0 < ({ AutocompletePrompt.new id "m".data ["x".data] with
        state := .Running
        input := "ab".data
        cursor := 1 } : AutocompletePrompt (List Char)).cursor →
      ({ AutocompletePrompt.new id "m".data ["x".data] with
        state := .Running
        input := "ab".data
        cursor := 1 } : AutocompletePrompt (List Char)
        ).handle_key_event (plainKey .backspace)
        = { ({ AutocompletePrompt.new id "m".data ["x".data] with
            state := .Running
            input := "ab".data
            cursor := 1 } : AutocompletePrompt (List Char)) with
            cursor := 1 - 1, input := "ab".data.eraseIdx (1 - 1) }) ∧
    ((1 : Nat) = 0 →
      ({ AutocompletePrompt.new id "m".data ["x".data] with
        state := .Running
        input := "ab".data
        cursor := 1 } : AutocompletePrompt (List Char)
        ).handle_key_event (plainKey .backspace)
        = { ({ AutocompletePrompt.new id "m".data ["x".data] with
            state := .Running
            input := "ab".data
            cursor := 1 } : AutocompletePrompt (List Char)) with
            input := "ab".data.tail }) ∧
    (0 < ({ MultiSelectPrompt.new id "m".data ["x".data] with
        state := .Running
        search_str := "ab".data
        cursor := 0 } : MultiSelectPrompt (List Char)).cursor →
      ({ MultiSelectPrompt.new id "m".data ["x".data] with
        state := .Running
        search_str := "ab".data
        cursor := 0 } : MultiSelectPrompt (List Char)
        ).handle_key_event (plainKey .backspace)
        = { ({ MultiSelectPrompt.new id "m".data ["x".data] with
            state := .Running
            search_str := "ab".data
            cursor := 0 } : MultiSelectPrompt (List Char)) with
            cursor := 0 - 1, search_str := "ab".data.eraseIdx (0 - 1) }) ∧
    ((0 : Nat) = 0 →
      ({ MultiSelectPrompt.new id "m".data ["x".data] with
        state := .Running
        search_str := "ab".data
        cursor := 0 } : MultiSelectPrompt (List Char)
        ).handle_key_event (plainKey .backspace)
        = { ({ MultiSelectPrompt.new id "m".data ["x".data] with
            state := .Running
            search_str := "ab".data
            cursor := 0 } : MultiSelectPrompt (List Char)) with
            search_str := "ab".data.tail }) :=
  backspace_saturating_behavior
    { TextPrompt.new "m".data with
      state := .Running
      input := "ab".data
      cursor := 2 } (by decide)
    { AutocompletePrompt.new id "m".data ["x".data] with
      state := .Running
      input := "ab".data
      cursor := 1 } (by decide)
    { MultiSelectPrompt.new id "m".data ["x".data] with
      state := .Running
      search_str := "ab".data
      cursor := 0 } (by decide)

end Prompts
